import Mathlib

set_option maxHeartbeats 1000000
set_option maxRecDepth 8000

/-!
Shallow embedding of the Schema & Data-Quality Validation Engine
(`tools.py`, `validation_module.py`) and proofs about its claims.

Cell values of a loaded tabular dataset are modelled by `Value`; the
runtime column dtypes produced by the CSV/Excel loaders (the only way a
dataset enters this engine) are `int64`, `float64`, `object`,
`datetime64[ns]` and `bool`, modelled by `Dtype`.  Machine floats are
modelled by exact rationals, and the numeric-literal grammar accepted by
the numeric coercion is the plain decimal grammar (optional sign, digits,
optional fraction) that the engine's constraint parser itself supports.
-/

namespace Validation

/-- A cell of a loaded DataFrame: integer, float, string, boolean,
timestamp (abstracted to an ordinal) or missing (`None`/`NaN`). -/
inductive Value where
  | vInt : Int → Value
  | vFloat : ℚ → Value
  | vStr : String → Value
  | vBool : Bool → Value
  | vDatetime : Nat → Value
  | vNone : Value
deriving DecidableEq, Repr

/-- Column dtypes produced by the pandas CSV/Excel readers. -/
inductive Dtype where
  | int64 | float64 | object | datetime64 | bool
deriving DecidableEq, Repr

/-- `str(dtype)` as recorded by the source. -/
def dtypeStr : Dtype → String
  | .int64 => "int64"
  | .float64 => "float64"
  | .object => "object"
  | .datetime64 => "datetime64[ns]"
  | .bool => "bool"

/-- `pd.isnull` on a cell. -/
def isNull : Value → Bool
  | .vNone => true
  | _ => false

def digitsToNat (cs : List Char) : Nat :=
  cs.foldl (fun a c => a * 10 + (c.toNat - 48)) 0

def isSpaceChar (c : Char) : Bool :=
  c = ' ' || c = '\t' || c = '\n' || c = '\r'

/-- Decimal-literal parser backing numeric coercion of strings
(optional sign, digits, optional '.' and digits; surrounding blanks
allowed).  Exotic forms (exponents, bare '.5') are out of the model. -/
def parseDecimal (s : String) : Option ℚ :=
  let cs := s.toList.dropWhile isSpaceChar
  let cs := (cs.reverse.dropWhile isSpaceChar).reverse
  let (neg, cs) :=
    match cs with
    | '-' :: r => (true, r)
    | '+' :: r => (false, r)
    | r => (false, r)
  let intPart := cs.takeWhile Char.isDigit
  let rest := cs.dropWhile Char.isDigit
  if intPart.isEmpty then none
  else
    match rest with
    | [] => some (if neg then -(digitsToNat intPart : ℚ) else (digitsToNat intPart : ℚ))
    | '.' :: frac =>
      if frac.isEmpty || !(frac.all Char.isDigit) then none
      else
        let q : ℚ := (digitsToNat intPart : ℚ) + (digitsToNat frac : ℚ) / (10 ^ frac.length)
        some (if neg then -q else q)
    | _ => none

/-- `pd.to_numeric` on one cell (`errors='coerce'` yields `none` where the
source yields `NaN`; with `errors='raise'` the `none` case raises). -/
def toNumeric : Value → Option ℚ
  | .vInt n => some (n : ℚ)
  | .vFloat q => some q
  | .vBool b => some (if b then 1 else 0)
  | .vStr s => parseDecimal s
  | .vDatetime _ => none
  | .vNone => none

/-- `str(v)` for sample serialization.  Non-integral floats and
timestamps are rendered approximately; no claim inspects them. -/
def pyStr : Value → String
  | .vInt n => toString n
  | .vFloat q => if q.den = 1 then toString q.num ++ ".0" else toString q
  | .vStr s => s
  | .vBool b => if b then "True" else "False"
  | .vDatetime n => toString n
  | .vNone => "None"

/-- First-occurrence-order deduplication (`Series.unique`). -/
def uniqueList {α : Type} [DecidableEq α] (l : List α) : List α :=
  l.foldl (fun acc a => if a ∈ acc then acc else acc ++ [a]) []

def countOcc {α : Type} [DecidableEq α] (a : α) (l : List α) : Nat :=
  (l.filter (fun x => x = a)).length

/-- Python substring test (`needle in haystack`). -/
def isSubstring (needle : List Char) : List Char → Bool
  | [] => needle.isEmpty
  | c :: t => needle.isPrefixOf (c :: t) || isSubstring needle t

/-- ASCII upper-casing (`str.upper()`; SQL type names are ASCII). -/
def toUpperChar (c : Char) : Char :=
  if 'a' ≤ c && c ≤ 'z' then Char.ofNat (c.toNat - 32) else c

def upperStr (s : String) : String :=
  String.mk (s.toList.map toUpperChar)

/-- `str.strip()` restricted to the modelled blank characters. -/
def trimStr (s : String) : String :=
  String.mk (((s.toList.dropWhile isSpaceChar).reverse.dropWhile isSpaceChar).reverse)

/-- `str.endswith(t)`. -/
def strEndsWith (s t : String) : Bool :=
  t.toList.reverse.isPrefixOf s.toList.reverse

/-- A DataFrame: labelled, dtyped columns and index-labelled rows. -/
structure DataFrame where
  header : List (String × Dtype)
  rows : List (Nat × List Value)
deriving DecidableEq, Repr

def getCell (row : List Value) (i : Nat) : Value :=
  row.getD i Value.vNone

def findPositions (name : String) : List (String × Dtype) → Nat → List Nat
  | [], _ => []
  | (n, _) :: t, i =>
    if n = name then i :: findPositions name t (i + 1) else findPositions name t (i + 1)

/-- Positions of a column label in the header; two or more positions is
pandas's duplicate-label case where `df[name]` is itself a DataFrame. -/
def DataFrame.colPositions (df : DataFrame) (name : String) : List Nat :=
  findPositions name df.header 0

def DataFrame.colDtypeAt (df : DataFrame) (i : Nat) : Dtype :=
  (df.header.getD i ("", .object)).2

/-- The labelled cells of the column at header position `i`. -/
def DataFrame.colCellsAt (df : DataFrame) (i : Nat) : List (Nat × Value) :=
  df.rows.map (fun r => (r.1, getCell r.2 i))

/-- `df.rename(columns=nm)`: the naming map is a dict, modelled as an
association list with first-match lookup. -/
def renameName (nm : List (String × String)) (n : String) : String :=
  ((nm.find? (fun p => p.1 = n)).map Prod.snd).getD n

def DataFrame.rename (df : DataFrame) (nm : List (String × String)) : DataFrame :=
  { df with header := df.header.map (fun p => (renameName nm p.1, p.2)) }

/-- Single-column DataFrame with the default 0-based index, as the
CSV/Excel readers produce for one column. -/
def mkSingleDf (name : String) (dt : Dtype) (vs : List Value) : DataFrame :=
  { header := [(name, dt)], rows := vs.enum.map (fun p => (p.1, [p.2])) }

/-! ## Schema extraction (`tools.extract_schema_from_df`) -/

/-- Per-column entry of the extracted schema. -/
structure ColInfo where
  inferred_type : String
  sample_values : List Value
  null_count : Nat
deriving DecidableEq, Repr

structure FileSchema where
  file_name : String
  sheet_name : Option String
  total_rows : Nat
  total_columns : Option Nat
  columns : List (String × ColInfo)
  error : Option String := none
deriving DecidableEq, Repr

/-- Timestamps in samples are stringified for JSON serializability. -/
def sanitizeSample (v : Value) : Value :=
  match v with
  | .vDatetime n => .vStr (pyStr (.vDatetime n))
  | v => v

/-- `extract_schema_from_df`.  The source mutates the caller's DataFrame
with `df.dropna(how='all', inplace=True)`; the mutation is modelled by
returning the post-call DataFrame alongside the schema. -/
def extract_schema_from_df (df : DataFrame) (file_name : String)
    (sheet_name : Option String) : FileSchema × DataFrame :=
  let df1 : DataFrame := { df with rows := df.rows.filter (fun r => !(r.2.all isNull)) }
  if df1.rows.isEmpty then
    ({ file_name := file_name, sheet_name := sheet_name, total_rows := 0,
       total_columns := none, columns := [] }, df1)
  else
    let columns := df1.header.enum.map (fun p =>
      let vals := df1.rows.map (fun r => getCell r.2 p.1)
      (p.2.1,
        ({ inferred_type := dtypeStr p.2.2,
           sample_values :=
             ((uniqueList (vals.filter (fun v => !(isNull v)))).map sanitizeSample).take 5,
           null_count := (vals.filter isNull).length } : ColInfo)))
    ({ file_name := file_name, sheet_name := sheet_name,
       total_rows := df1.rows.length, total_columns := some df1.header.length,
       columns := columns }, df1)

/-- The canonical category of each recorded runtime dtype string. -/
def canonicalTag (s : String) : Option String :=
  if s = "int64" then some "integer"
  else if s = "float64" then some "floating"
  else if s = "object" then some "textual"
  else if s = "datetime64[ns]" then some "temporal"
  else if s = "bool" then some "boolean"
  else none

/-! ## Target-table schema and type validation (`tools.validate_data_types`) -/

/-- One target-table column as supplied by the schema provider. -/
structure DbCol where
  type : String
  nullable : Bool
  primary_key : Bool
deriving DecidableEq, Repr

/-- A target-table schema: a dict of column name to column details. -/
abbrev TableSchema := List (String × DbCol)

/-- The resolved SQL-to-pandas lookup built by inverting
`pandas_to_sql_map` in dict order with non-object entries taking
priority, exactly as the source computes it (so DATE/DATETIME/TIMESTAMP
resolve to datetime64, not object). -/
def sqlToPandasMap (base : String) : Option Dtype :=
  if base = "INTEGER" || base = "INT" then some .int64
  else if base = "REAL" || base = "FLOAT" || base = "NUMERIC" || base = "DOUBLE" then
    some .float64
  else if base = "TEXT" || base = "VARCHAR" || base = "CHAR" || base = "STRING" then
    some .object
  else if base = "DATE" || base = "DATETIME" || base = "TIMESTAMP" then some .datetime64
  else if base = "BOOLEAN" || base = "BOOL" then some .bool
  else none

/-- `str(type).split('(')[0].upper()`. -/
def stripBase (ty : String) : String :=
  upperStr (String.mk (ty.toList.takeWhile (fun c => c ≠ '(')))

structure TypeViolation where
  column : String
  expected_db_type : String
  found_file_type : String
  sample_invalid_values : List String
deriving DecidableEq, Repr

/-- Expected-integer / actual-textual sample heuristic: a value is
invalid when numeric coercion fails or the coerced value has a nonzero
fractional part. -/
def intInvalid (v : Value) : Bool :=
  match toNumeric v with
  | some q => q.den ≠ 1
  | none => true

/-- Expected-floating / actual-textual sample heuristic. -/
def floatInvalid (v : Value) : Bool :=
  (toNumeric v).isNone

def uniqueNonNull (vals : List Value) : List Value :=
  uniqueList (vals.filter (fun v => !(isNull v)))

/-- The up-to-5 sample invalid values gathered on a flagged mismatch. -/
def sampleInvalid (expected : Option Dtype) (fileDtype : Dtype) (vals : List Value) :
    List String :=
  match expected, fileDtype with
  | some .int64, .object => ((uniqueNonNull vals).filter intInvalid).map pyStr
  | some .float64, .object => ((uniqueNonNull vals).filter floatInvalid).map pyStr
  | _, .object => ((uniqueNonNull vals).take 5).map pyStr
  | _, _ => []

def temporalBases : List String := ["DATE", "DATETIME", "TIMESTAMP"]

/-- The type-compatibility check of one schema entry against the
dataset (one iteration of the loop in `validate_data_types`). -/
def typeViolationsForCol (df : DataFrame) (entry : String × DbCol) : List TypeViolation :=
  match df.colPositions entry.1 with
  | [] => []
  | [i] =>
    let fileDtype := df.colDtypeAt i
    let vals := (df.colCellsAt i).map Prod.snd
    let base := stripBase entry.2.type
    let mismatch :=
      match sqlToPandasMap base with
      | some exp =>
        if fileDtype ≠ exp then
          decide (¬(base ∈ temporalBases ∧ fileDtype = .object))
        else false
      | none => false
    if mismatch = true then
      [{ column := entry.1, expected_db_type := base,
         found_file_type := dtypeStr fileDtype,
         sample_invalid_values := (sampleInvalid (sqlToPandasMap base) fileDtype vals).take 5 }]
    else []
  | _ => []

def validate_data_types (df : DataFrame) (dbSchema : TableSchema) : List TypeViolation :=
  dbSchema.flatMap (typeViolationsForCol df)

/-! ## Data-quality checks (`tools.run_data_quality_checks`) -/

/-- One CHECK constraint as returned by the schema provider. -/
structure CheckConstraint where
  name : Option String
  sqltext : String
deriving DecidableEq, Repr

inductive CompOp where
  | gt | ge | lt | le | ne | eq
deriving DecidableEq, Repr

/-- Case-insensitive literal match of a pattern against the head of the
input (the `re.IGNORECASE` flag covers the column name too). -/
def dropCI : List Char → List Char → Option (List Char)
  | [], s => some s
  | c :: cs, x :: xs => if c.toLower = x.toLower then dropCI cs xs else none
  | _ :: _, [] => none

def parseOp : List Char → Option (CompOp × List Char)
  | '>' :: '=' :: r => some (.ge, r)
  | '<' :: '=' :: r => some (.le, r)
  | '!' :: '=' :: r => some (.ne, r)
  | '>' :: r => some (.gt, r)
  | '<' :: r => some (.lt, r)
  | '=' :: r => some (.eq, r)
  | _ => none

/-- The numeric literal of the supported constraint pattern. -/
def parseNumLit (cs : List Char) : Option ℚ :=
  let (neg, cs) := match cs with | '-' :: r => (true, r) | r => (false, r)
  let ds := cs.takeWhile Char.isDigit
  if ds.isEmpty then none
  else
    let rest := cs.dropWhile Char.isDigit
    let q : ℚ :=
      match rest with
      | '.' :: r2 =>
        let fs := r2.takeWhile Char.isDigit
        if fs.isEmpty then (digitsToNat ds : ℚ)
        else (digitsToNat ds : ℚ) + (digitsToNat fs : ℚ) / (10 ^ fs.length)
      | _ => (digitsToNat ds : ℚ)
    some (if neg then -q else q)

def quoteChars : List Char := ['"', Char.ofNat 96]

def dropOptQuote (s : List Char) : List Char :=
  match s with
  | c :: r => if c ∈ quoteChars then r else c :: r
  | [] => []

/-- The narrow constraint matcher: the anchored, case-insensitive pattern
optional-quote, column name, optional-quote, blanks, comparison operator,
blanks, signed decimal literal; anything may follow. -/
def matchConstraint (col : String) (sqltext : List Char) : Option (CompOp × ℚ) :=
  match dropCI col.toList (dropOptQuote sqltext) with
  | none => none
  | some s =>
    let s := (dropOptQuote s).dropWhile isSpaceChar
    match parseOp s with
    | none => none
    | some (op, s) =>
      (parseNumLit (s.dropWhile isSpaceChar)).map (fun v => (op, v))

/-- The complement predicate evaluated on each coerced value. -/
def complementHolds (op : CompOp) (q value : ℚ) : Bool :=
  match op with
  | .gt => q ≤ value
  | .ge => q < value
  | .lt => value ≤ q
  | .le => value < q
  | .ne => q = value
  | .eq => q ≠ value

/-- One data-quality violation record.  Narrative `details` text is not
modelled; `count` is optional because the primary-key record carries
`distinct_keys_duplicated`/`total_duplicate_records` and no `count` key. -/
structure DQViolation where
  column : String
  check : String
  count : Option Nat := none
  distinct_keys_duplicated : Option Nat := none
  total_duplicate_records : Option Nat := none
  affected_rows_sample_indices : List Nat := []
  sample_values : List String := []
  constraint_name : Option String := none
  sqltext : Option String := none
  severity : String
deriving DecidableEq, Repr

def dbStringTypes : List String := ["CHAR", "TEXT", "STRING"]

/-- Whether the declared type is in the textual family (substring test
against the upper-cased full declared type, so VARCHAR matches CHAR). -/
def isDbStringType (ty : String) : Bool :=
  dbStringTypes.any (fun t => isSubstring t.toList (upperStr ty).toList)

/-- The not-null check of one non-nullable column. -/
def nullCheckViolations (name : String) (det : DbCol) (dt : Dtype)
    (col : List (Nat × Value)) : List DQViolation :=
  if det.nullable then []
  else
    let vals := col.map Prod.snd
    let nullCount0 := (vals.filter isNull).length
    let emptyCount := if dt = .object then (vals.filter (fun v => v = .vStr "")).length else 0
    let nullCount :=
      if !(isDbStringType det.type) && emptyCount > 0 then nullCount0 + emptyCount
      else nullCount0
    if nullCount > 0 then
      let affected := ((col.filter (fun p =>
        isNull p.2 || (decide (dt = .object) && decide (p.2 = .vStr "")))).map Prod.fst).take 5
      [{ column := name, check := "not_null_violation", count := some nullCount,
         affected_rows_sample_indices := affected, severity := "high" }]
    else []

/-- The primary-key uniqueness check of one key column. -/
def pkCheckViolations (name : String) (det : DbCol) (dt : Dtype)
    (col : List (Nat × Value)) : List DQViolation :=
  if !det.primary_key then []
  else
    let nonNull := col.filter (fun p => !(isNull p.2))
    let cleaned :=
      if dt = .object then nonNull.filter (fun p => p.2 ≠ .vStr "") else nonNull
    let cvals := cleaned.map Prod.snd
    let dups := cleaned.filter (fun p => 2 ≤ countOcc p.2 cvals)
    let distinctDups := uniqueList (dups.map Prod.snd)
    if distinctDups.length > 0 then
      [{ column := name, check := "primary_key_violation",
         distinct_keys_duplicated := some distinctDups.length,
         total_duplicate_records := some dups.length,
         sample_values := (distinctDups.take 5).map pyStr,
         severity := "high" }]
    else []

/-- The CHECK-constraint evaluation for one column against the
constraints whose text mentions the column name. -/
def checkConstraintViolations (name : String) (checks : List CheckConstraint)
    (col : List (Nat × Value)) : List DQViolation :=
  let colChecks := checks.filter (fun c => isSubstring name.toList c.sqltext.toList)
  let numericCol := col.map (fun p => (p.1, toNumeric p.2))
  let vals := col.map Prod.snd
  let nonNumericPresent :=
    (numericCol.any (fun p => p.2.isNone)) && !(vals.all isNull)
  colChecks.flatMap (fun c =>
    let sqltext := trimStr c.sqltext
    match matchConstraint name sqltext.toList with
    | some opv =>
      if nonNumericPresent then []
      else
        let violated := numericCol.filter (fun p =>
          (p.2.map (fun q => complementHolds opv.1 q opv.2)).getD false)
        if violated.length > 0 then
          let affected := (violated.map Prod.fst).take 5
          let samples := affected.map (fun idx =>
            pyStr (((col.find? (fun p => p.1 = idx)).map Prod.snd).getD .vNone))
          [{ column := name, check := "check_constraint_violation",
             count := some violated.length,
             affected_rows_sample_indices := affected,
             sample_values := samples.take 5,
             constraint_name := c.name, sqltext := some sqltext,
             severity := "medium" }]
        else []
    | none => [])

/-- All data-quality checks of one schema entry (one iteration of the
column loop in `run_data_quality_checks`). -/
def dqViolationsForCol (df : DataFrame) (checks : List CheckConstraint)
    (entry : String × DbCol) : List DQViolation :=
  match df.colPositions entry.1 with
  | [] => []
  | [i] =>
    let dt := df.colDtypeAt i
    let col := df.colCellsAt i
    nullCheckViolations entry.1 entry.2 dt col ++
      pkCheckViolations entry.1 entry.2 dt col ++
      checkConstraintViolations entry.1 checks col
  | _ => []

/-- `run_data_quality_checks`: the fetched CHECK constraints are an
input (the source's fetch failure path passes the empty list). -/
def run_data_quality_checks (df : DataFrame) (dbSchema : TableSchema)
    (checks : List CheckConstraint) : List DQViolation :=
  dbSchema.flatMap (dqViolationsForCol df checks)

/-! ## Violation summary (`_create_violation_summary`) -/

structure TypeSummaryItem where
  column : String
  expected : String
  found : String
deriving DecidableEq, Repr

structure DQSummaryItem where
  column : String
  check : String
  count : Nat
  severity : String
deriving DecidableEq, Repr

structure ViolationSummary where
  type_mismatch_summary : List TypeSummaryItem
  data_quality_issue_summary : List DQSummaryItem
deriving DecidableEq, Repr

/-- One data-quality summary entry: the source reads `v["count"]` by
plain dict access, which raises KeyError when the record carries no
count (severity is read with a defaulted `.get`, so it cannot raise). -/
def dqSummaryItem (v : DQViolation) : Option DQSummaryItem :=
  v.count.map (fun c =>
    { column := v.column, check := v.check, count := c, severity := v.severity })

/-- `_create_violation_summary`; `none` models the raised KeyError. -/
def createViolationSummary (types : List TypeViolation) (dq : List DQViolation) :
    Option ViolationSummary :=
  (dq.mapM dqSummaryItem).map (fun items =>
    { type_mismatch_summary := types.map (fun v =>
        { column := v.column, expected := v.expected_db_type, found := v.found_file_type }),
      data_quality_issue_summary := items })

/-! ## The per-sheet pipeline (`validation_module.py`)

The two external collaborators (reconciliation and narrative LLM calls)
and the file/engine environment are modelled as oracles supplied to the
run: `none` is a transport failure (the call returned no text),
`some none` is non-parseable output, `some (some x)` is a parsed result. -/

/-- The parsed schema-analysis JSON; only the naming map is consumed by
the deterministic engine. -/
structure SchemaAnalysis where
  naming_mismatches : List (String × String)
deriving DecidableEq, Repr

/-- Outcome of the dynamic-rules step (never escalates a failure). -/
inductive DynRules where
  | empty | failed | parsed
deriving DecidableEq, Repr

structure VSummary where
  status : Option String
deriving DecidableEq, Repr

/-- The parsed final-analysis JSON, reduced to the one field the claims
inspect (it is merged into the report by `dict.update`). -/
structure LlmFinal where
  validation_summary : Option VSummary
deriving DecidableEq, Repr

structure LlmEnv where
  schemaAnalysis : Option (Option SchemaAnalysis)
  dynamicRules : Option (Option Unit)
  finalAnalysis : Option (Option LlmFinal)
deriving DecidableEq, Repr

/-- The report dict; absent keys are `none`, and `validated_at` records
whether the timestamp field is present. -/
structure Report where
  file_name : Option String := none
  sheet_name : Option (Option String) := none
  total_rows_checked : Option Nat := none
  validated_at : Bool := false
  schema_mismatch : Option SchemaAnalysis := none
  data_type_mismatch : Option (List TypeViolation) := none
  data_quality_issues : Option (List DQViolation) := none
  dynamic_validation_rules : Option DynRules := none
  validation_summary : Option VSummary := none
  error : Option String := none
deriving DecidableEq, Repr

/-- The catch-all error report built by the `except` clause of
`_run_validation_for_sheet_internal`. -/
def errorReport (file_path : String) (sheet : Option String) (msg : String) : Report :=
  { file_name := some file_path, sheet_name := some sheet, validated_at := true,
    validation_summary := some ⟨some "Error"⟩, error := some msg }

/-- `os.path.basename`. -/
def basename (p : String) : String :=
  String.mk ((p.toList.reverse.takeWhile (fun c => c ≠ '/')).reverse)

/-- `_run_validation_for_sheet_internal`, returning the report and the
schema-analysis JSON (`{}`, i.e. an empty naming map, when the run
fails before the analysis is parsed). -/
def internalRun (df : DataFrame) (file_path : String) (sheet_name : Option String)
    (dbSchema : Option TableSchema) (checks : List CheckConstraint) (env : LlmEnv) :
    Report × SchemaAnalysis :=
  let fileSchema := (extract_schema_from_df df file_path sheet_name).1
  let df1 := (extract_schema_from_df df file_path sheet_name).2
  if fileSchema.error.isSome || fileSchema.columns.isEmpty then
    (errorReport file_path sheet_name "Schema extraction failed", ⟨[]⟩)
  else
    match dbSchema with
    | none => (errorReport file_path sheet_name "Database table does not exist.", ⟨[]⟩)
    | some dbs =>
      match env.schemaAnalysis with
      | none => (errorReport file_path sheet_name
          "Failed to get schema analysis from LLM.", ⟨[]⟩)
      | some none => (errorReport file_path sheet_name
          "LLM did not return valid JSON for schema analysis.", ⟨[]⟩)
      | some (some sa) =>
        let mapped := df1.rename sa.naming_mismatches
        let tys := validate_data_types mapped dbs
        let dqs := run_data_quality_checks mapped dbs checks
        let dyn : DynRules :=
          match env.dynamicRules with
          | none => .empty
          | some none => .failed
          | some (some _) => .parsed
        match createViolationSummary tys dqs with
        | none => (errorReport file_path sheet_name "KeyError: 'count'", sa)
        | some _summary =>
          let base : Report :=
            { file_name := some (basename file_path),
              sheet_name := some sheet_name,
              total_rows_checked := some fileSchema.total_rows,
              validated_at := true,
              data_type_mismatch := some tys,
              data_quality_issues := some dqs,
              dynamic_validation_rules := some dyn,
              validation_summary := some ⟨none⟩ }
          match env.finalAnalysis with
          | none => (errorReport file_path sheet_name
              "Failed to get final analysis from LLM.", sa)
          | some none =>
            ({ base with validation_summary := some ⟨some "Error"⟩ }, sa)
          | some (some fin) =>
            ({ base with validation_summary := some (fin.validation_summary.getD ⟨none⟩) }, sa)

inductive FileKind where
  | csv | excel | other
deriving DecidableEq, Repr

def fileKind (p : String) : FileKind :=
  if strEndsWith p ".xls" || strEndsWith p ".xlsx" then .excel
  else if strEndsWith p ".csv" then .csv
  else .other

/-- The outer environment of one run: engine creation, the read of the
requested sheet (`none` models a raised read error), the target table's
schema (`none` models an absent table) and its CHECK constraints. -/
structure PipelineEnv where
  engineOk : Bool
  readResult : Option DataFrame
  dbSchema : Option TableSchema
  checks : List CheckConstraint
  llm : LlmEnv
deriving DecidableEq, Repr

/-- `run_validation_for_single_sheet`: the agent-facing wrapper.  Its own
failure paths return a bare error dict; otherwise the internal report is
returned with the schema-analysis JSON attached as `schema_mismatch`. -/
def run_validation_for_single_sheet (env : PipelineEnv) (file_path sheet_name : String)
    (_table_name : String) : Report :=
  if !env.engineOk then
    { error := some "Failed to create Databricks engine. Check .env credentials." }
  else
    let read_sheet := if sheet_name = "csv_data" then none else some sheet_name
    match fileKind file_path with
    | .other =>
      { error := some ("A critical error occurred: Unsupported file type: " ++ file_path) }
    | _ =>
      match env.readResult with
      | none => { error := some "A critical error occurred: failed to read file" }
      | some df =>
        let out := internalRun df file_path read_sheet env.dbSchema env.checks env.llm
        { out.1 with schema_mismatch := some out.2 }

/-! ## Concrete fixtures used by witnesses and counterexamples -/

def dfC1 : DataFrame := mkSingleDf "k" .int64 [.vInt 1, .vInt 1]

def schemaC1 : TableSchema := [("k", ⟨"INT", true, true⟩)]

/-- Oracle environment in which every external call succeeds. -/
def envLlmOk : LlmEnv :=
  ⟨some (some ⟨[]⟩), some (some ()), some (some ⟨some ⟨some "Success"⟩⟩)⟩

def dfC4 : DataFrame := mkSingleDf "c" .object [.vStr "1", .vStr "2", .vStr "x"]

def schemaC4 : TableSchema := [("c", ⟨"INTEGER", true, false⟩)]

/-- Oracle environment whose final narrative call fails at transport. -/
def envTransportFail : LlmEnv := ⟨some (some ⟨[]⟩), some (some ()), none⟩

/-- Oracle environment whose final narrative call returns non-parseable output. -/
def envParseFail : LlmEnv := ⟨some (some ⟨[]⟩), some (some ()), some none⟩

/-- Fully operational outer environment. -/
def envReady : PipelineEnv := ⟨true, some dfC1, some schemaC1, [], envLlmOk⟩

/-! ## Helper lemmas -/

theorem not_all_isNull (l : List Value) :
    (!(l.all isNull)) = l.any (fun v => !(isNull v)) := by
  induction l with
  | nil => rfl
  | cons a t ih => cases h : isNull a <;> simp [List.all_cons, List.any_cons, h, ih]

theorem map_snd_filter_snd (p : β → Bool) (l : List (α × β)) :
    (l.filter (fun q => p q.2)).map Prod.snd = (l.map Prod.snd).filter p := by
  induction l with
  | nil => rfl
  | cons a t ih => cases h : p a.2 <;> simp [List.filter_cons, h, ih]

theorem length_filter_snd_enum (p : α → Bool) (l : List α) :
    (l.enum.filter (fun q => p q.2)).length = (l.filter p).length := by
  have h := congrArg List.length (map_snd_filter_snd p l.enum)
  simpa [List.enum_map_snd] using h

theorem mkSingleDf_colPositions (n : String) (dt : Dtype) (vs : List Value) :
    (mkSingleDf n dt vs).colPositions n = [0] := by
  simp [mkSingleDf, DataFrame.colPositions, findPositions]

theorem mkSingleDf_cells (n : String) (dt : Dtype) (vs : List Value) :
    (mkSingleDf n dt vs).colCellsAt 0 = vs.enum := by
  simp only [mkSingleDf, DataFrame.colCellsAt, List.map_map]
  have : ((fun r : Nat × List Value => (r.1, getCell r.2 0)) ∘
      fun p : Nat × Value => (p.1, [p.2])) = id := by
    funext p; rfl
  rw [this, List.map_id]

theorem mkSingleDf_dtype (n : String) (dt : Dtype) (vs : List Value) :
    (mkSingleDf n dt vs).colDtypeAt 0 = dt := rfl

/-! ## Claim theorems -/

/-- Claim C10: `extract_schema_from_df` removes exactly the fully-empty
rows from the caller's DataFrame in place (modelled by the returned
DataFrame); the remaining rows, their order, their index labels and the
columns are unchanged. -/
theorem c10_extract_drops_empty_rows_in_place (df : DataFrame) (fn : String)
    (sn : Option String) :
    (extract_schema_from_df df fn sn).2.rows
        = df.rows.filter (fun r => r.2.any (fun v => !(isNull v))) ∧
    (extract_schema_from_df df fn sn).2.header = df.header := by
  have hrows : df.rows.filter (fun r => !(r.2.all isNull))
      = df.rows.filter (fun r => r.2.any (fun v => !(isNull v))) :=
    List.filter_congr (fun r _ => not_all_isNull r.2)
  unfold extract_schema_from_df
  dsimp only
  split <;> simp [hrows]

/-- Claim C3: every column entry of a successfully extracted schema
records an inferred type that canonicalizes into exactly one of the five
canonical tags integer, floating, textual, temporal, boolean. -/
theorem c3_inferred_type_canonical (df : DataFrame) (fn : String) (sn : Option String)
    (c : String) (info : ColInfo)
    (h : (c, info) ∈ (extract_schema_from_df df fn sn).1.columns) :
    canonicalTag info.inferred_type ∈
      [some "integer", some "floating", some "textual", some "temporal", some "boolean"] := by
  unfold extract_schema_from_df at h
  dsimp only at h
  split at h
  · simp at h
  · simp only [List.mem_map] at h
    obtain ⟨p, _, hp⟩ := h
    have hinfo : info.inferred_type = dtypeStr p.2.2 := by
      have h2 := congrArg Prod.snd hp
      simp only at h2
      rw [← h2]
    rw [hinfo]
    cases p.2.2 <;> simp [dtypeStr, canonicalTag]

/-- Witness for C3 at a concrete one-column integer dataset. -/
theorem c3_witness :
    canonicalTag (ColInfo.mk "int64" [Value.vInt 1] 0).inferred_type ∈
      [some "integer", some "floating", some "textual", some "temporal", some "boolean"] :=
  c3_inferred_type_canonical ⟨[("a", .int64)], [(0, [.vInt 1])]⟩ "f.csv" none "a"
    ⟨"int64", [.vInt 1], 0⟩ (by decide)

/-- Claim C1: the summarizing step is not total.  A data-quality list
containing a `primary_key_violation` (which carries no `count` key)
makes `_create_violation_summary` raise KeyError, and the pipeline lands
in the Error state instead of proceeding to Snapshotting. -/
theorem c1_summarizer_fails_on_pk_violation :
    (run_data_quality_checks dfC1 schemaC1 []).any
        (fun v => v.check == "primary_key_violation") = true ∧
    createViolationSummary [] (run_data_quality_checks dfC1 schemaC1 []) = none ∧
    ((internalRun dfC1 "f.csv" none (some schemaC1) [] envLlmOk).1.error).isSome = true ∧
    (internalRun dfC1 "f.csv" none (some schemaC1) [] envLlmOk).1.validation_summary
      = some ⟨some "Error"⟩ := by
  refine ⟨by decide, by decide, by decide, by decide⟩

/-- Every terminal report of the internal per-sheet validation carries
`file_name`, `sheet_name` and `validated_at`. -/
theorem internalRun_fields_present (df : DataFrame) (p : String) (s : Option String)
    (dbs : Option TableSchema) (checks : List CheckConstraint) (env : LlmEnv) :
    ((internalRun df p s dbs checks env).1.file_name).isSome = true ∧
    ((internalRun df p s dbs checks env).1.sheet_name).isSome = true ∧
    (internalRun df p s dbs checks env).1.validated_at = true := by
  unfold internalRun
  dsimp only
  repeat' split
  all_goals exact ⟨rfl, rfl, rfl⟩

/-- Claim C2, amended: the pipeline never raises; when the per-sheet
validation is reached its report always carries `file_name`,
`sheet_name` and `validated_at`, but the wrapper's own failure paths
(engine creation, file reading, unsupported file type) return a bare
error object without those fields. -/
theorem c2_report_well_formed_or_bare_error (env : PipelineEnv) (p s t : String) :
    ((run_validation_for_single_sheet env p s t).file_name.isSome = true ∧
      (run_validation_for_single_sheet env p s t).sheet_name.isSome = true ∧
      (run_validation_for_single_sheet env p s t).validated_at = true) ∨
    ((run_validation_for_single_sheet env p s t).error.isSome = true ∧
      (run_validation_for_single_sheet env p s t).file_name = none ∧
      (run_validation_for_single_sheet env p s t).validated_at = false) := by
  unfold run_validation_for_single_sheet
  dsimp only
  split
  · right; exact ⟨rfl, rfl, rfl⟩
  · split
    · right; exact ⟨rfl, rfl, rfl⟩
    · split
      · right; exact ⟨rfl, rfl, rfl⟩
      · next df _ =>
        exact Or.inl (internalRun_fields_present df p _ env.dbSchema env.checks env.llm)

/-- Counterexample to C2 as stated: with a working engine but an
unsupported file extension, the caller receives a bare error dict that
contains neither `file_name` nor `validated_at`. -/
theorem c2_counterexample_bare_error :
    (run_validation_for_single_sheet envReady "data.txt" "Sheet1" "t").file_name = none ∧
    (run_validation_for_single_sheet envReady "data.txt" "Sheet1" "t").validated_at = false ∧
    (run_validation_for_single_sheet envReady "data.txt" "Sheet1" "t").error.isSome = true := by
  refine ⟨by decide, by decide, by decide⟩

/-- Counterexample to C4 as stated: when the narrative call fails at
transport (returns no text), the deterministic type-mismatch section —
nonempty for this input — is discarded from the terminal report. -/
theorem c4_counterexample_transport_discards :
    validate_data_types dfC4 schemaC4 ≠ [] ∧
    (internalRun dfC4 "f.csv" none (some schemaC4) [] envTransportFail).1.data_type_mismatch
      = none ∧
    (internalRun dfC4 "f.csv" none (some schemaC4) [] envTransportFail).1.validation_summary
      = some ⟨some "Error"⟩ := by
  refine ⟨by decide, by decide, by decide⟩

/-- Claim C4, amended: only a non-parseable narrative output degrades the
status to Error while retaining the deterministic sections; a transport
failure of the narrative call aborts into the minimal error report that
discards them. -/
theorem c4_narrative_failure_behavior (df : DataFrame) (p : String) (s : Option String)
    (dbs : TableSchema) (checks : List CheckConstraint) (env : LlmEnv) (a : SchemaAnalysis)
    (hex : ((extract_schema_from_df df p s).1.error.isSome
        || (extract_schema_from_df df p s).1.columns.isEmpty) = false)
    (hsa : env.schemaAnalysis = some (some a))
    (hsum : createViolationSummary
        (validate_data_types ((extract_schema_from_df df p s).2.rename a.naming_mismatches) dbs)
        (run_data_quality_checks ((extract_schema_from_df df p s).2.rename a.naming_mismatches)
          dbs checks) ≠ none) :
    (env.finalAnalysis = some none →
      (internalRun df p s (some dbs) checks env).1.validation_summary = some ⟨some "Error"⟩ ∧
      (internalRun df p s (some dbs) checks env).1.data_type_mismatch
        = some (validate_data_types
            ((extract_schema_from_df df p s).2.rename a.naming_mismatches) dbs) ∧
      (internalRun df p s (some dbs) checks env).1.data_quality_issues
        = some (run_data_quality_checks
            ((extract_schema_from_df df p s).2.rename a.naming_mismatches) dbs checks) ∧
      (internalRun df p s (some dbs) checks env).1.error = none) ∧
    (env.finalAnalysis = none →
      (internalRun df p s (some dbs) checks env).1
        = errorReport p s "Failed to get final analysis from LLM.") := by
  obtain ⟨smry, hs⟩ := Option.ne_none_iff_exists'.mp hsum
  constructor <;> intro hfin <;>
    simp [internalRun, hex, hsa, hs, hfin, errorReport]

/-- Witness for C4 (amended) at a concrete parse-failure run. -/
theorem c4_witness :
    (internalRun dfC4 "f.csv" none (some schemaC4) [] envParseFail).1.validation_summary
      = some ⟨some "Error"⟩ ∧
    (internalRun dfC4 "f.csv" none (some schemaC4) [] envParseFail).1.data_type_mismatch
      = some (validate_data_types
          ((extract_schema_from_df dfC4 "f.csv" none).2.rename
            (SchemaAnalysis.mk []).naming_mismatches) schemaC4) ∧
    (internalRun dfC4 "f.csv" none (some schemaC4) [] envParseFail).1.error = none := by
  have h := (c4_narrative_failure_behavior dfC4 "f.csv" none schemaC4 [] envParseFail ⟨[]⟩
    (by decide) rfl (by decide)).1 rfl
  exact ⟨h.1, h.2.1, h.2.2.2⟩

/-- Reduction of the data-quality run on a single-column DataFrame. -/
theorem run_dq_single (n : String) (dt : Dtype) (vs : List Value) (det : DbCol)
    (checks : List CheckConstraint) :
    run_data_quality_checks (mkSingleDf n dt vs) [(n, det)] checks =
      nullCheckViolations n det dt vs.enum ++ pkCheckViolations n det dt vs.enum ++
        checkConstraintViolations n checks vs.enum := by
  simp [run_data_quality_checks, dqViolationsForCol, mkSingleDf_colPositions,
    mkSingleDf_cells, mkSingleDf_dtype]

theorem filter_eq_nil_of_all_ne {w : Value} {vs : List Value}
    (h : vs.all (fun v => v ≠ w) = true) : vs.filter (fun v => v = w) = [] := by
  induction vs with
  | nil => rfl
  | cons a t ih =>
    simp only [List.all_cons, Bool.and_eq_true] at h
    have ha : (a = w) = False := by
      simpa using h.1
    simp [List.filter_cons, ha, ih h.2]

theorem mem_of_filter_pos {α : Type} {p : α → Bool} {l : List α}
    (h : 0 < (l.filter p).length) : ∃ x ∈ l, p x = true := by
  have hne : l.filter p ≠ [] := by
    intro hc
    rw [hc] at h
    exact Nat.lt_irrefl 0 h
  obtain ⟨a, ha⟩ := List.exists_mem_of_ne_nil _ hne
  exact ⟨a, (List.mem_filter.mp ha).1, (List.mem_filter.mp ha).2⟩

/-- Claim C6: for a non-nullable column the not-null check counts the
missing entries, adds the empty-string entries exactly when the declared
type is outside the textual family, and a positive total yields exactly
one `not_null_violation` of severity high carrying that total as `count`
and at most 5 affected row indices; a zero total yields no violation.
(The dtype hypothesis records that a real pandas column containing the
empty string necessarily has dtype object.) -/
theorem c6_not_null_check (vs : List Value) (ty : String) (dt : Dtype)
    (hdt : dt = Dtype.object ∨ vs.all (fun v => v ≠ Value.vStr "") = true) :
    (0 < (vs.filter isNull).length +
        (if isDbStringType ty then 0 else (vs.filter (fun v => v = Value.vStr "")).length) →
      (run_data_quality_checks (mkSingleDf "c" dt vs) [("c", ⟨ty, false, false⟩)] []).length = 1
      ∧ (run_data_quality_checks (mkSingleDf "c" dt vs) [("c", ⟨ty, false, false⟩)] []).all
          (fun a => a.check == "not_null_violation"
            && a.count == some ((vs.filter isNull).length +
                 (if isDbStringType ty then 0
                  else (vs.filter (fun v => v = Value.vStr "")).length))
            && a.severity == "high"
            && decide (a.affected_rows_sample_indices.length ≤ 5)) = true)
    ∧ ((vs.filter isNull).length +
        (if isDbStringType ty then 0 else (vs.filter (fun v => v = Value.vStr "")).length) = 0 →
      run_data_quality_checks (mkSingleDf "c" dt vs) [("c", ⟨ty, false, false⟩)] [] = []) := by
  have hred := run_dq_single "c" dt vs ⟨ty, false, false⟩ []
  have hpk : pkCheckViolations "c" ⟨ty, false, false⟩ dt vs.enum = [] := by
    simp [pkCheckViolations]
  have hcc : checkConstraintViolations "c" [] vs.enum = [] := by
    simp [checkConstraintViolations]
  rw [hpk, hcc, List.append_nil, List.append_nil] at hred
  rw [hred]
  simp only [nullCheckViolations, List.enum_map_snd]
  have hle : ∀ l : List Nat, (decide ((List.take 5 l).length ≤ 5)) = true := by
    intro l
    simp [List.length_take_le 5 l]
  rcases hdt with h | h
  · subst h
    split_ifs with h1 h2 <;>
      simp_all [List.all_cons, hle] <;>
      first
        | omega
        | (exact mem_of_filter_pos (by assumption))
        | (intro hz
           obtain ⟨x, hx, hpx⟩ := mem_of_filter_pos (by assumption)
           have hxx : x = Value.vStr "" := of_decide_eq_true hpx
           subst hxx
           exact hx)
  · have he0 : vs.filter (fun v => v = Value.vStr "") = [] := filter_eq_nil_of_all_ne h
    simp only [he0, List.length_nil]
    by_cases hobj : dt = Dtype.object <;>
      simp only [hobj] <;> split_ifs with h1 h2 <;> simp_all [List.all_cons, hle] <;>
      first
        | omega
        | (exact mem_of_filter_pos (by assumption))
        | (intro hz
           obtain ⟨x, hx, hpx⟩ := mem_of_filter_pos (by assumption)
           have hxx : x = Value.vStr "" := of_decide_eq_true hpx
           subst hxx
           exact hx)

theorem map_snd_filter_snd' {α β : Type} (p : β → Bool) (l : List (α × β)) :
    (l.filter (fun q => p q.2)).map Prod.snd = (l.map Prod.snd).filter p := by
  induction l with
  | nil => rfl
  | cons a t ih => cases h : p a.2 <;> simp [List.filter_cons, h, ih]

theorem mem_uniqueList {α : Type} [DecidableEq α] (l : List α) (a : α) :
    a ∈ uniqueList l ↔ a ∈ l := by
  have haux : ∀ (l : List α) (acc : List α),
      a ∈ l.foldl (fun acc x => if x ∈ acc then acc else acc ++ [x]) acc ↔
        a ∈ acc ∨ a ∈ l := by
    intro l
    induction l with
    | nil => intro acc; simp
    | cons x t ih =>
      intro acc
      rw [List.foldl_cons, ih]
      by_cases hx : x ∈ acc
      · simp only [if_pos hx]
        constructor
        · rintro (h | h)
          · exact Or.inl h
          · exact Or.inr (List.mem_cons_of_mem _ h)
        · rintro (h | h)
          · exact Or.inl h
          · rcases List.mem_cons.mp h with rfl | h
            · exact Or.inl hx
            · exact Or.inr h
      · simp only [if_neg hx]
        constructor
        · rintro (h | h)
          · rcases List.mem_append.mp h with h | h
            · exact Or.inl h
            · exact Or.inr (List.mem_cons.mpr (Or.inl (List.mem_singleton.mp h)))
          · exact Or.inr (List.mem_cons_of_mem _ h)
        · rintro (h | h)
          · exact Or.inl (List.mem_append.mpr (Or.inl h))
          · rcases List.mem_cons.mp h with rfl | h
            · exact Or.inl (List.mem_append.mpr (Or.inr (List.mem_singleton.mpr rfl)))
            · exact Or.inr h
  rw [uniqueList, haux]
  simp

theorem uniqueList_eq_nil {α : Type} [DecidableEq α] (l : List α) :
    uniqueList l = [] ↔ l = [] := by
  constructor
  · intro h
    cases l with
    | nil => rfl
    | cons a t =>
      exfalso
      have : a ∈ uniqueList (a :: t) := (mem_uniqueList _ _).mpr (List.mem_cons_self a t)
      rw [h] at this
      exact List.not_mem_nil a this
  · intro h
    subst h
    rfl

/-- Claim C7: for a primary-key column, after dropping null and
empty-string keys, any remaining value occurring more than once yields
exactly one `primary_key_violation` of severity high reporting the
number of distinct duplicated keys, the total number of records
involved, and at most 5 sample values; otherwise nothing is emitted. -/
theorem c7_pk_check (vs : List Value) (dt : Dtype)
    (hdt : dt = Dtype.object ∨ vs.all (fun v => v ≠ Value.vStr "") = true) :
    (0 < ((vs.filter (fun v => !(isNull v) && v ≠ Value.vStr "")).filter
        (fun v => 2 ≤ countOcc v (vs.filter (fun v => !(isNull v) && v ≠ Value.vStr "")))).length →
      (run_data_quality_checks (mkSingleDf "k" dt vs) [("k", ⟨"INT", true, true⟩)] []).length = 1
      ∧ (run_data_quality_checks (mkSingleDf "k" dt vs) [("k", ⟨"INT", true, true⟩)] []).all
          (fun a => a.check == "primary_key_violation"
            && a.distinct_keys_duplicated == some (uniqueList
                ((vs.filter (fun v => !(isNull v) && v ≠ Value.vStr "")).filter
                  (fun v => 2 ≤ countOcc v
                    (vs.filter (fun v => !(isNull v) && v ≠ Value.vStr ""))))).length
            && a.total_duplicate_records == some
                ((vs.filter (fun v => !(isNull v) && v ≠ Value.vStr "")).filter
                  (fun v => 2 ≤ countOcc v
                    (vs.filter (fun v => !(isNull v) && v ≠ Value.vStr "")))).length
            && a.severity == "high"
            && decide (a.sample_values.length ≤ 5)) = true)
    ∧ (((vs.filter (fun v => !(isNull v) && v ≠ Value.vStr "")).filter
        (fun v => 2 ≤ countOcc v (vs.filter (fun v => !(isNull v) && v ≠ Value.vStr "")))).length = 0 →
      run_data_quality_checks (mkSingleDf "k" dt vs) [("k", ⟨"INT", true, true⟩)] [] = []) := by
  have hred := run_dq_single "k" dt vs ⟨"INT", true, true⟩ []
  have hnull : nullCheckViolations "k" ⟨"INT", true, true⟩ dt vs.enum = [] := by
    simp [nullCheckViolations]
  have hcc : checkConstraintViolations "k" [] vs.enum = [] := by
    simp [checkConstraintViolations]
  rw [hnull, hcc, List.nil_append, List.append_nil] at hred
  rw [hred]
  -- reduce the cleaned pair list to a single filter over vs.enum with the claim predicate
  have hclean : (if dt = Dtype.object then
        (vs.enum.filter (fun p => !(isNull p.2))).filter (fun p => p.2 ≠ Value.vStr "")
      else vs.enum.filter (fun p => !(isNull p.2)))
      = vs.enum.filter (fun p => !(isNull p.2) && p.2 ≠ Value.vStr "") := by
    rcases hdt with h | h
    · rw [if_pos h, List.filter_filter]
      exact List.filter_congr (fun x _ => Bool.and_comm _ _)
    · have hne : ∀ q ∈ vs.enum, (!(isNull q.2) : Bool)
          = (!(isNull q.2) && decide ¬(q.2 = Value.vStr "")) := by
        intro q hq
        have hq2 : q.2 ∈ vs := by
          have := List.mem_map_of_mem Prod.snd hq
          rwa [List.enum_map_snd] at this
        have := (List.all_eq_true.mp h) q.2 hq2
        simp only [this, Bool.and_true]
      by_cases hobj : dt = Dtype.object
      · rw [if_pos hobj, List.filter_filter]
        exact List.filter_congr (fun x hx => Bool.and_comm _ _)
      · rw [if_neg hobj]
        exact List.filter_congr hne
  simp only [pkCheckViolations]
  rw [hclean]
  have hsnd : (vs.enum.filter (fun p => !(isNull p.2) && decide (p.2 ≠ Value.vStr ""))).map Prod.snd
      = vs.filter (fun v => !(isNull v) && decide (v ≠ Value.vStr "")) := by
    rw [map_snd_filter_snd' (fun v => !(isNull v) && decide (v ≠ Value.vStr "")) vs.enum,
      List.enum_map_snd]
  rw [hsnd]
  have hdups : (List.filter (fun p => decide (2 ≤ countOcc p.2
        (vs.filter (fun v => !(isNull v) && decide (v ≠ Value.vStr "")))))
        (vs.enum.filter (fun p => !(isNull p.2) && decide (p.2 ≠ Value.vStr "")))).map Prod.snd
      = (vs.filter (fun v => !(isNull v) && decide (v ≠ Value.vStr ""))).filter
          (fun v => decide (2 ≤ countOcc v
            (vs.filter (fun v => !(isNull v) && decide (v ≠ Value.vStr ""))))) := by
    rw [map_snd_filter_snd' (fun v => decide (2 ≤ countOcc v
      (vs.filter (fun v => !(isNull v) && decide (v ≠ Value.vStr ""))))) _, hsnd]
  have hlen : (List.filter (fun p => decide (2 ≤ countOcc p.2
        (vs.filter (fun v => !(isNull v) && decide (v ≠ Value.vStr "")))))
        (vs.enum.filter (fun p => !(isNull p.2) && decide (p.2 ≠ Value.vStr "")))).length
      = ((vs.filter (fun v => !(isNull v) && decide (v ≠ Value.vStr ""))).filter
          (fun v => decide (2 ≤ countOcc v
            (vs.filter (fun v => !(isNull v) && decide (v ≠ Value.vStr "")))))).length := by
    rw [← hdups, List.length_map]
  rw [hdups, hlen]
  constructor
  · intro hpos
    have hne : ((vs.filter (fun v => !(isNull v) && decide (v ≠ Value.vStr ""))).filter
        (fun v => decide (2 ≤ countOcc v
          (vs.filter (fun v => !(isNull v) && decide (v ≠ Value.vStr "")))))) ≠ [] := by
      intro hc
      rw [hc] at hpos
      simp at hpos
    have hu : uniqueList ((vs.filter (fun v => !(isNull v) && decide (v ≠ Value.vStr ""))).filter
        (fun v => decide (2 ≤ countOcc v
          (vs.filter (fun v => !(isNull v) && decide (v ≠ Value.vStr "")))))) ≠ [] :=
      fun hc => hne ((uniqueList_eq_nil _).mp hc)
    rw [if_pos (List.length_pos.mpr hu)]
    refine ⟨rfl, ?_⟩
    simp [List.length_take_le]
  · intro hz
    rw [List.length_eq_zero] at hz
    rw [hz]
    simp [uniqueList]

/-- Witness for C6 at the spec's example `[1, null, 3, "", 5]` declared INTEGER. -/
theorem c6_witness :
    (run_data_quality_checks (mkSingleDf "c" .object
        [.vInt 1, .vNone, .vInt 3, .vStr "", .vInt 5])
      [("c", ⟨"INTEGER", false, false⟩)] []).length = 1 ∧
    (run_data_quality_checks (mkSingleDf "c" .object
        [.vInt 1, .vNone, .vInt 3, .vStr "", .vInt 5])
      [("c", ⟨"INTEGER", false, false⟩)] []).all
        (fun a => a.check == "not_null_violation" && a.count == some 2
          && a.severity == "high"
          && decide (a.affected_rows_sample_indices.length ≤ 5)) = true := by
  have h := (c6_not_null_check [.vInt 1, .vNone, .vInt 3, .vStr "", .vInt 5] "INTEGER" .object
    (Or.inl rfl)).1 (by decide)
  exact h

/-- Witness for C7 at the spec's example `[1,1,2,3,3,3]`. -/
theorem c7_witness :
    (run_data_quality_checks (mkSingleDf "k" .int64
        [.vInt 1, .vInt 1, .vInt 2, .vInt 3, .vInt 3, .vInt 3])
      [("k", ⟨"INT", true, true⟩)] []).length = 1 ∧
    (run_data_quality_checks (mkSingleDf "k" .int64
        [.vInt 1, .vInt 1, .vInt 2, .vInt 3, .vInt 3, .vInt 3])
      [("k", ⟨"INT", true, true⟩)] []).all
        (fun a => a.check == "primary_key_violation"
          && a.distinct_keys_duplicated == some 2
          && a.total_duplicate_records == some 5
          && a.severity == "high"
          && decide (a.sample_values.length ≤ 5)) = true := by
  have h := (c7_pk_check [.vInt 1, .vInt 1, .vInt 2, .vInt 3, .vInt 3, .vInt 3] .int64
    (Or.inr (by decide))).1 (by decide)
  exact h

theorem any_map_general {α β : Type} (f : α → β) (p : β → Bool) (l : List α) :
    (l.map f).any p = l.any (fun a => p (f a)) := by
  induction l with
  | nil => rfl
  | cons a t ih => simp [List.any_cons, ih]

theorem any_snd_enum (p : Value → Bool) (vs : List Value) :
    vs.enum.any (fun q => p q.2) = vs.any p := by
  have h := any_map_general Prod.snd p vs.enum
  rw [List.enum_map_snd] at h
  rw [← h]

theorem isNone_false_iff (o : Option ℚ) : o.isNone = false ↔ o.isSome = true := by
  cases o <;> simp

theorem checkConstraint_eval_single (vs : List Value) (dt : Dtype) :
    ((run_data_quality_checks (mkSingleDf "price" dt vs)
        [("price", ⟨"REAL", true, false⟩)] [⟨some "c1", "price > 0"⟩]).any
        (fun a => a.check == "check_constraint_violation") = true ↔
      ((vs.all (fun v => (toNumeric v).isSome) = true ∨ vs.all isNull = true) ∧
        0 < (vs.filter (fun v =>
              ((toNumeric v).map (fun q => decide (q ≤ 0))).getD false)).length)) ∧
    (run_data_quality_checks (mkSingleDf "price" dt vs)
        [("price", ⟨"REAL", true, false⟩)] [⟨some "c1", "price > 0"⟩]).all
        (fun a => a.check == "check_constraint_violation"
          && a.count == some (vs.filter (fun v =>
              ((toNumeric v).map (fun q => decide (q ≤ 0))).getD false)).length
          && a.severity == "medium") = true ∧
    (run_data_quality_checks (mkSingleDf "price" dt vs)
        [("price", ⟨"REAL", true, false⟩)] [⟨some "c1", "price > 0"⟩]).length ≤ 1 := by
  have hred := run_dq_single "price" dt vs ⟨"REAL", true, false⟩ [⟨some "c1", "price > 0"⟩]
  have hnull : nullCheckViolations "price" ⟨"REAL", true, false⟩ dt vs.enum = [] := by
    simp [nullCheckViolations]
  have hpk : pkCheckViolations "price" ⟨"REAL", true, false⟩ dt vs.enum = [] := by
    simp [pkCheckViolations]
  rw [hnull, hpk, List.nil_append, List.nil_append] at hred
  rw [hred]
  simp only [checkConstraintViolations]
  have hfil : ([(⟨some "c1", "price > 0"⟩ : CheckConstraint)].filter
      (fun c => isSubstring "price".toList c.sqltext.toList))
      = [⟨some "c1", "price > 0"⟩] := by decide
  rw [hfil]
  have hmatch : matchConstraint "price" (trimStr "price > 0").toList
      = some (CompOp.gt, (0 : ℚ)) := by decide
  simp only [List.flatMap_cons, List.flatMap_nil, List.append_nil]
  rw [hmatch]
  dsimp only
  simp only [complementHolds, List.enum_map_snd]
  have hany : ((List.map (fun p => (p.1, toNumeric p.2)) vs.enum).any fun p => p.2.isNone)
      = vs.any (fun v => (toNumeric v).isNone) := by
    rw [any_map_general]
    exact any_snd_enum (fun v => (toNumeric v).isNone) vs
  rw [hany]
  have hflen : (List.filter (fun p =>
        ((p.2.map (fun q => decide (q ≤ (0:ℚ)))).getD false))
        (List.map (fun p => (p.1, toNumeric p.2)) vs.enum)).length
      = (vs.filter (fun v =>
          (((toNumeric v).map (fun q => decide (q ≤ (0:ℚ)))).getD false))).length := by
    rw [List.filter_map, List.length_map]
    exact length_filter_snd_enum (fun v =>
      (((toNumeric v).map (fun q => decide (q ≤ (0:ℚ)))).getD false)) vs
  rw [hflen]
  cases hA : vs.any (fun v => (toNumeric v).isNone) <;> cases hB : vs.all isNull <;>
    simp only [Bool.false_and, Bool.true_and, Bool.and_false, Bool.and_true,
      Bool.not_true, Bool.not_false, Bool.false_eq_true, Bool.true_eq_false, if_false, if_true]
  -- (A,B) = (false,false)
  · have hAS : vs.all (fun v => (toNumeric v).isSome) = true := by
      rw [List.all_eq_true]
      intro v hv
      have h2 := (List.any_eq_false.mp hA) v hv
      cases hval : toNumeric v <;> simp_all
    split_ifs with hL
    · refine ⟨?_, by simp, by simp⟩
      simp only [List.any_cons, List.any_nil]
      constructor
      · intro _
        exact ⟨Or.inl hAS, hL⟩
      · intro _
        simp
    · refine ⟨?_, by simp, by simp⟩
      simp only [List.any_nil]
      constructor
      · intro hc
        exact absurd hc (by simp)
      · rintro ⟨-, hC⟩
        exact absurd hC (by simpa using hL)
  -- (A,B) = (false,true)
  · have hAS : vs.all (fun v => (toNumeric v).isSome) = true := by
      rw [List.all_eq_true]
      intro v hv
      have h2 := (List.any_eq_false.mp hA) v hv
      cases hval : toNumeric v <;> simp_all
    split_ifs with hL
    · refine ⟨?_, by simp, by simp⟩
      simp only [List.any_cons, List.any_nil]
      constructor
      · intro _
        exact ⟨Or.inl hAS, hL⟩
      · intro _
        simp
    · refine ⟨?_, by simp, by simp⟩
      simp only [List.any_nil]
      constructor
      · intro hc
        exact absurd hc (by simp)
      · rintro ⟨-, hC⟩
        exact absurd hC (by simpa using hL)
  -- (A,B) = (true,false)
  · refine ⟨?_, by simp, by simp⟩
    simp only [List.any_nil]
    constructor
    · intro hc
      exact absurd hc (by simp)
    · rintro ⟨hC | hC, -⟩
      · obtain ⟨v, hv, hnone⟩ := List.any_eq_true.mp hA
        have h2 := (List.all_eq_true.mp hC) v hv
        cases hval : toNumeric v <;> simp_all
      · exact hC.elim
  -- (A,B) = (true,true)
  · split_ifs with hL
    · refine ⟨?_, by simp, by simp⟩
      simp only [List.any_cons, List.any_nil]
      constructor
      · intro _
        exact ⟨Or.inr trivial, hL⟩
      · intro _
        simp
    · refine ⟨?_, by simp, by simp⟩
      simp only [List.any_nil]
      constructor
      · intro hc
        exact absurd hc (by simp)
      · rintro ⟨-, hC⟩
        exact absurd hC (by simpa using hL)

/-- Claim C5, amended: a CHECK constraint of the supported form is
evaluated iff every value of the column (nulls included) is
numeric-coercible, or the column is entirely null; evaluation counts the
non-null rows satisfying the complement predicate and emits at most one
`check_constraint_violation` of severity medium carrying that count.  In
particular `price > 0` against `[10, -5, 0, 20, "abc"]` is skipped
entirely, and with `"abc"` removed it yields exactly one violation with
count 2. -/
theorem c5_check_constraint_behavior :
    (∀ (vs : List Value) (dt : Dtype),
      ((run_data_quality_checks (mkSingleDf "price" dt vs)
          [("price", ⟨"REAL", true, false⟩)] [⟨some "c1", "price > 0"⟩]).any
          (fun a => a.check == "check_constraint_violation") = true ↔
        ((vs.all (fun v => (toNumeric v).isSome) = true ∨ vs.all isNull = true) ∧
          0 < (vs.filter (fun v =>
                ((toNumeric v).map (fun q => decide (q ≤ 0))).getD false)).length)) ∧
      (run_data_quality_checks (mkSingleDf "price" dt vs)
          [("price", ⟨"REAL", true, false⟩)] [⟨some "c1", "price > 0"⟩]).all
          (fun a => a.check == "check_constraint_violation"
            && a.count == some (vs.filter (fun v =>
                ((toNumeric v).map (fun q => decide (q ≤ 0))).getD false)).length
            && a.severity == "medium") = true ∧
      (run_data_quality_checks (mkSingleDf "price" dt vs)
          [("price", ⟨"REAL", true, false⟩)] [⟨some "c1", "price > 0"⟩]).length ≤ 1) ∧
    run_data_quality_checks (mkSingleDf "price" .object
        [.vInt 10, .vInt (-5), .vInt 0, .vInt 20, .vStr "abc"])
      [("price", ⟨"REAL", true, false⟩)] [⟨some "c1", "price > 0"⟩] = [] ∧
    (run_data_quality_checks (mkSingleDf "price" .int64
        [.vInt 10, .vInt (-5), .vInt 0, .vInt 20])
      [("price", ⟨"REAL", true, false⟩)] [⟨some "c1", "price > 0"⟩]).map
        (fun a => (a.check, a.count, a.severity))
      = [("check_constraint_violation", some 2, "medium")] :=
  ⟨checkConstraint_eval_single, by decide, by decide⟩

/-- Counterexample to C5 as stated: in `[-5, null]` every non-null value
is numeric-coercible and one of them violates `price > 0`, so the claim
demands an emitted violation; the code skips the constraint because the
null itself fails numeric coercion. -/
theorem c5_counterexample_null_skips :
    ([Value.vFloat (-5), Value.vNone].filter (fun v => !(isNull v))).all
        (fun v => (toNumeric v).isSome) = true ∧
    ([Value.vFloat (-5), Value.vNone].filter (fun v =>
        ((toNumeric v).map (fun q => decide (q ≤ 0))).getD false)).length = 1 ∧
    run_data_quality_checks (mkSingleDf "price" .float64 [.vFloat (-5), .vNone])
      [("price", ⟨"REAL", true, false⟩)] [⟨some "c1", "price > 0"⟩] = [] := by
  refine ⟨by decide, by decide, by decide⟩

theorem typeViolationsForCol_temporal_object (df : DataFrame) (name : String) (det : DbCol) (i : Nat)
    (hpos : df.colPositions name = [i]) (hdt : df.colDtypeAt i = .object)
    (htemp : stripBase det.type ∈ temporalBases) :
    typeViolationsForCol df (name, det) = [] := by
  have h3 : stripBase det.type = "DATE" ∨ stripBase det.type = "DATETIME" ∨
      stripBase det.type = "TIMESTAMP" := by
    simpa [temporalBases] using htemp
  rcases h3 with h | h | h <;>
    simp [typeViolationsForCol, hpos, hdt, h, sqlToPandasMap, temporalBases]

theorem length_colPositions (df : DataFrame) (n : String) :
    (df.colPositions n).length = df.header.countP (fun p => p.1 = n) := by
  suffices h : ∀ (l : List (String × Dtype)) (i : Nat),
      (findPositions n l i).length = l.countP (fun p => p.1 = n) by
    exact h df.header 0
  intro l
  induction l with
  | nil => intro i; rfl
  | cons a t ih =>
    intro i
    obtain ⟨a1, a2⟩ := a
    by_cases ha : a1 = n <;>
      simp [findPositions, ha, List.countP_cons, ih (i + 1)] <;> omega

theorem two_mem_countP {α β : Type} [DecidableEq β] (f : α → β) {l : List α} {a b : α}
    {t : β} (hab : a ≠ b) (ha : a ∈ l) (hb : b ∈ l) (hfa : f a = t) (hfb : f b = t) :
    2 ≤ l.countP (fun x => f x = t) := by
  obtain ⟨s1, s2, rfl⟩ := List.append_of_mem ha
  rcases List.mem_append.mp hb with hb1 | hb2
  · rw [List.countP_append, List.countP_cons]
    have h1 : 0 < s1.countP (fun x => decide (f x = t)) :=
      List.countP_pos.mpr ⟨b, hb1, by simp [hfb]⟩
    have h2 : (decide (f a = t)) = true := by simp [hfa]
    simp only [h2, if_pos]
    omega
  · rcases List.mem_cons.mp hb2 with rfl | hb3
    · exact absurd rfl hab
    · rw [List.countP_append, List.countP_cons]
      have h1 : 0 < s2.countP (fun x => decide (f x = t)) :=
        List.countP_pos.mpr ⟨b, hb3, by simp [hfb]⟩
      have h2 : (decide (f a = t)) = true := by simp [hfa]
      simp only [h2, if_pos]
      omega

theorem typeViolationsForCol_dup (df : DataFrame) (e : String × DbCol)
    (h : 2 ≤ (df.colPositions e.1).length) : typeViolationsForCol df e = [] := by
  rcases hp : df.colPositions e.1 with _ | ⟨a, _ | ⟨b, t⟩⟩
  · rw [hp] at h; simp at h
  · rw [hp] at h; simp at h
  · simp [typeViolationsForCol, hp]

theorem dqViolationsForCol_dup (df : DataFrame) (checks : List CheckConstraint)
    (e : String × DbCol) (h : 2 ≤ (df.colPositions e.1).length) :
    dqViolationsForCol df checks e = [] := by
  rcases hp : df.colPositions e.1 with _ | ⟨a, _ | ⟨b, t⟩⟩
  · rw [hp] at h; simp at h
  · rw [hp] at h; simp at h
  · simp [dqViolationsForCol, hp]

theorem typeViolationsForCol_column (df : DataFrame) (e : String × DbCol)
    (v : TypeViolation) (hv : v ∈ typeViolationsForCol df e) : v.column = e.1 := by
  simp only [typeViolationsForCol] at hv
  split at hv
  · exact absurd hv (List.not_mem_nil v)
  · split at hv
    · rw [List.mem_singleton.mp hv]
    · exact absurd hv (List.not_mem_nil v)
  · exact absurd hv (List.not_mem_nil v)

theorem nullCheck_column (name : String) (det : DbCol) (dt : Dtype)
    (col : List (Nat × Value)) (v : DQViolation)
    (hv : v ∈ nullCheckViolations name det dt col) : v.column = name := by
  simp only [nullCheckViolations] at hv
  split_ifs at hv <;>
    first
      | exact absurd hv (List.not_mem_nil v)
      | rw [List.mem_singleton.mp hv]

theorem pkCheck_column (name : String) (det : DbCol) (dt : Dtype)
    (col : List (Nat × Value)) (v : DQViolation)
    (hv : v ∈ pkCheckViolations name det dt col) : v.column = name := by
  simp only [pkCheckViolations] at hv
  split_ifs at hv <;>
    first
      | exact absurd hv (List.not_mem_nil v)
      | rw [List.mem_singleton.mp hv]

theorem checkConstraint_column (name : String) (checks : List CheckConstraint)
    (col : List (Nat × Value)) (v : DQViolation)
    (hv : v ∈ checkConstraintViolations name checks col) : v.column = name := by
  simp only [checkConstraintViolations] at hv
  obtain ⟨c, _, hvc⟩ := List.mem_flatMap.mp hv
  split at hvc
  · split_ifs at hvc <;>
      first
        | exact absurd hvc (List.not_mem_nil v)
        | rw [List.mem_singleton.mp hvc]
  · exact absurd hvc (List.not_mem_nil v)

theorem dqViolationsForCol_column (df : DataFrame) (checks : List CheckConstraint)
    (e : String × DbCol) (v : DQViolation)
    (hv : v ∈ dqViolationsForCol df checks e) : v.column = e.1 := by
  simp only [dqViolationsForCol] at hv
  split at hv
  · exact absurd hv (List.not_mem_nil v)
  · rcases List.mem_append.mp hv with h | h
    · rcases List.mem_append.mp h with h | h
      · exact nullCheck_column _ _ _ _ v h
      · exact pkCheck_column _ _ _ _ v h
    · exact checkConstraint_column _ _ _ v h
  · exact absurd hv (List.not_mem_nil v)

/-- Claim C9: when the naming map sends two distinct file columns to one
target name, the duplicate-labelled column is excluded from both the
type-compatibility check and every data-quality check: neither check
emits any violation naming that column. -/
theorem c9_duplicate_target_excluded (df : DataFrame) (nm : List (String × String))
    (dbSchema : TableSchema) (checks : List CheckConstraint) (c d tgt : String)
    (hne : c ≠ d) (hc : c ∈ df.header.map Prod.fst) (hd : d ∈ df.header.map Prod.fst)
    (hmc : renameName nm c = tgt) (hmd : renameName nm d = tgt) :
    (validate_data_types (df.rename nm) dbSchema).all (fun v => v.column != tgt) = true ∧
    (run_data_quality_checks (df.rename nm) dbSchema checks).all
      (fun v => v.column != tgt) = true := by
  have hcount : 2 ≤ ((df.rename nm).colPositions tgt).length := by
    rw [length_colPositions]
    show 2 ≤ (df.header.map (fun p => (renameName nm p.1, p.2))).countP (fun p => p.1 = tgt)
    rw [List.countP_map]
    obtain ⟨pc, hpc, hpc1⟩ := List.mem_map.mp hc
    obtain ⟨pd, hpd, hpd1⟩ := List.mem_map.mp hd
    have hpcd : pc ≠ pd := fun hx => hne (by rw [← hpc1, ← hpd1, hx])
    exact two_mem_countP (fun p => renameName nm p.1) hpcd hpc hpd
      (by show renameName nm pc.1 = tgt
          rw [hpc1]
          exact hmc)
      (by show renameName nm pd.1 = tgt
          rw [hpd1]
          exact hmd)
  constructor
  · rw [List.all_eq_true]
    intro v hv
    obtain ⟨e, _, hve⟩ := List.mem_flatMap.mp hv
    by_cases het : e.1 = tgt
    · have hd0 := typeViolationsForCol_dup (df.rename nm) e (by rw [het]; exact hcount)
      rw [hd0] at hve
      exact absurd hve (List.not_mem_nil v)
    · have hcol := typeViolationsForCol_column _ e v hve
      simp [hcol, het]
  · rw [List.all_eq_true]
    intro v hv
    obtain ⟨e, _, hve⟩ := List.mem_flatMap.mp hv
    by_cases het : e.1 = tgt
    · have hd0 := dqViolationsForCol_dup (df.rename nm) checks e (by rw [het]; exact hcount)
      rw [hd0] at hve
      exact absurd hve (List.not_mem_nil v)
    · have hcol := dqViolationsForCol_column _ checks e v hve
      simp [hcol, het]

/-- Claim C8: a column whose declared base type is temporal is never
flagged against inferred-textual (object) data; and a declared INTEGER
column holding `["1","2","x"]` is flagged as a TypeViolation whose
sample invalid values are exactly `["x"]` (gathered by the
integer-coercion heuristic, capped at 5). -/
theorem c8_type_check_behavior :
    (∀ (df : DataFrame) (name : String) (det : DbCol) (i : Nat),
      df.colPositions name = [i] → df.colDtypeAt i = .object →
      stripBase det.type ∈ temporalBases →
      typeViolationsForCol df (name, det) = []) ∧
    (validate_data_types (mkSingleDf "c" .object [.vStr "1", .vStr "2", .vStr "x"])
        [("c", ⟨"INTEGER", true, false⟩)]).map
      (fun v => (v.column, v.expected_db_type, v.found_file_type, v.sample_invalid_values))
      = [("c", "INTEGER", "object", ["x"])] :=
  ⟨typeViolationsForCol_temporal_object, by decide⟩

/-- Witness for C8 at a concrete declared-DATE, inferred-textual column. -/
theorem c8_witness :
    typeViolationsForCol (mkSingleDf "c" .object [.vStr "2024-01-01"])
      ("c", ⟨"DATE", true, false⟩) = [] :=
  c8_type_check_behavior.1 (mkSingleDf "c" .object [.vStr "2024-01-01"]) "c"
    ⟨"DATE", true, false⟩ 0 (by decide) rfl (by decide)

def dfW9 : DataFrame := ⟨[("qty", .int64), ("quantity", .int64)], [(0, [.vInt 1, .vInt 2])]⟩

def nmW9 : List (String × String) := [("qty", "Quantity"), ("quantity", "Quantity")]

def schemaW9 : TableSchema := [("Quantity", ⟨"INT", false, true⟩)]

def checksW9 : List CheckConstraint := [⟨some "c1", "Quantity > 0"⟩]

/-- Witness for C9 at a concrete two-columns-to-one naming map. -/
theorem c9_witness :
    (validate_data_types (dfW9.rename nmW9) schemaW9).all
      (fun v => v.column != "Quantity") = true ∧
    (run_data_quality_checks (dfW9.rename nmW9) schemaW9 checksW9).all
      (fun v => v.column != "Quantity") = true :=
  c9_duplicate_target_excluded dfW9 nmW9 schemaW9 checksW9 "qty" "quantity" "Quantity"
    (by decide) (by decide) (by decide) (by decide) (by decide)

end Validation
